import Mathlib

/-!
Shallow embedding of the out-of-core tiled fiber-orientation analysis engine
(foa3d: `pipeline.py` and `output.py` under src, plus the spec-modelled pieces
of the collaborator modules that are not part of the sources).
-/

set_option maxHeartbeats 1000000

namespace Foa3d

/-! ### Volume store: `init_volume` and its collaborators (pipeline.py 233-281) -/

/-- The two storage backings `init_volume` can choose. -/
inductive Backing where
  | hdf5
  | memmap
  deriving DecidableEq

/-- An allocated output volume: the backing chosen at creation, the array shape,
the NumPy dtype string, the scratch name and the temporary directory. -/
structure Vol where
  backing : Backing
  shape : List Nat
  dtype : String
  name : String
  tmp : String
  deriving DecidableEq

/-- Modelled from the spec: `create_hdf5_dset` (foa3d/utils.py, not under src) allocates a
chunked disk-resident HDF5 dataset in the temporary directory and returns it together with
the path of its backing file. The chunk layout does not change the identity of the dataset. -/
def create_hdf5_dset (shape : List Nat) (dtype : String) (chunks : Option (List Nat))
    (name : String) (tmp : String) : Vol × String :=
  let _ := chunks
  (⟨Backing.hdf5, shape, dtype, name, tmp⟩, tmp ++ "/" ++ name ++ ".h5")

/-- Modelled from the spec: `create_memory_map` (foa3d/utils.py, not under src) allocates an
addressable memory-mapped buffer backed by a scratch file in the temporary directory. -/
def create_memory_map (shape : List Nat) (dtype : String) (name : String) (tmp : String)
    (mmap_mode : String) : Vol :=
  let _ := mmap_mode
  ⟨Backing.memmap, shape, dtype, name, tmp⟩

/-- `init_volume` (pipeline.py 233-281). `get_item_size` stands for the dtype item size
(foa3d/utils.py, not under src) and `avail` for `psutil.virtual_memory()[1]`, the currently
available memory in bytes; both are parameters so the theorems hold for every assignment. -/
def init_volume (get_item_size : String → Nat) (avail : ℚ) (shape : List Nat) (dtype : String)
    (chunks : Option (List Nat)) (name : String) (tmp : String) (mmap_mode : String)
    (max_ram_mb : Option ℚ) : Vol × Option String :=
  let max_ram : ℚ := match max_ram_mb with
    | none => avail
    | some mb => mb * 1024 ^ 2
  let item_sz : Nat := get_item_size dtype
  let vol_sz : ℚ := ((item_sz * shape.prod : Nat) : ℚ)
  if max_ram ≤ vol_sz then
    let vp := create_hdf5_dset shape dtype chunks name tmp
    (vp.1, some vp.2)
  else
    (create_memory_map shape dtype name tmp mmap_mode, none)

/-! ### ODF analysis volumes: `init_odf_volumes` (pipeline.py 156-230) -/

/-- Modelled from the spec: `get_sph_harm_ncoeff` (foa3d/odf.py, not under src) returns the
number of real even spherical harmonics coefficients up to the given even degree. -/
def get_sph_harm_ncoeff (degrees : Nat) : Nat :=
  (degrees / 2 + 1) * (degrees + 1)

/-- `np.ceil(np.divide(a, b))` cast to a nonnegative integer. -/
def np_ceil_div (a : Nat) (b : Int) : Nat :=
  Int.toNat ⌈(a : ℚ) / (b : ℚ)⌉

/-- The seven values returned by `init_odf_volumes`. Each field holds exactly what the
corresponding local name holds in the source: the value the `init_volume` call produced. -/
structure OdfVolumes where
  odf : Vol × Option String
  bg_mrtrix : Vol × Option String
  odi_pri : Vol × Option String
  odi_sec : Vol × Option String
  odi_tot : Vol × Option String
  odi_anis : Vol × Option String
  vec_tensor_eigen : Vol × Option String

/-- `init_odf_volumes` (pipeline.py 156-230). Note the source binds every `init_volume`
result without tuple unpacking, so each returned value is the full (volume, hdf5 path)
pair; the types below record that faithfully. -/
def init_odf_volumes (get_item_size : String → Nat) (avail : ℚ) (vec_img_shape : List Nat)
    (tmp_dir : String) (odf_scale : Int) (odf_degrees : Nat) (max_ram_mb : Option ℚ) :
    OdfVolumes :=
  let odi_shape : List Nat := vec_img_shape.map (fun s => np_ceil_div s odf_scale)
  let bg_shape : List Nat := odi_shape.reverse
  let bg_mrtrix := init_volume get_item_size avail bg_shape "uint8"
    (some (bg_shape.take 2 ++ [1])) ("bg_tmp" ++ toString odf_scale) tmp_dir "r+" max_ram_mb
  let num_coeff := get_sph_harm_ncoeff odf_degrees
  let odf_shape := odi_shape ++ [num_coeff]
  let odf := init_volume get_item_size avail odf_shape "float32"
    (some [1, 1, 1, num_coeff]) ("odf_tmp" ++ toString odf_scale) tmp_dir "r+" max_ram_mb
  let vec_tensor_shape := odi_shape ++ [3]
  let vec_tensor_eigen := init_volume get_item_size avail vec_tensor_shape "float32"
    (some [1, 1, 1, 3]) ("tensor_tmp" ++ toString odf_scale) tmp_dir "r+" max_ram_mb
  let odi_pri := init_volume get_item_size avail odi_shape "uint8"
    none ("odi_pri_tmp" ++ toString odf_scale) tmp_dir "r+" max_ram_mb
  let odi_sec := init_volume get_item_size avail odi_shape "uint8"
    none ("odi_sec_tmp" ++ toString odf_scale) tmp_dir "r+" max_ram_mb
  let odi_tot := init_volume get_item_size avail odi_shape "uint8"
    none ("odi_tot_tmp" ++ toString odf_scale) tmp_dir "r+" max_ram_mb
  let odi_anis := init_volume get_item_size avail odi_shape "uint8"
    none ("odi_anis_tmp" ++ toString odf_scale) tmp_dir "r+" max_ram_mb
  ⟨odf, bg_mrtrix, odi_pri, odi_sec, odi_tot, odi_anis, vec_tensor_eigen⟩

/-! ### ODF analysis driver: `odf_analysis` (pipeline.py 498-562) -/

/-- Decisions taken by `odf_analysis`: the super-voxel scale it derives, the volumes it
initializes, and the voxel side it hands to the background generator and the coefficient
estimator (both collaborators outside src). -/
structure OdfAnalysisTrace where
  odf_scale : Int
  vols : OdfVolumes
  vxl_side_bg : Int
  vxl_side_est : Int

/-- `odf_analysis` (pipeline.py 498-562), restricted to the decisions it takes:
`odf_scale = int(np.ceil(odf_scale_um / px_size_iso[0]))`, the shapes handed to
`init_odf_volumes` (the vector shape minus its channel axis), and the `vxl_side`
arguments of the two downsampling collaborators. -/
def odf_analysis (get_item_size : String → Nat) (avail : ℚ) (vec_img_shape : List Nat)
    (tmp_dir : String) (odf_scale_um : ℚ) (px_size_iso0 : ℚ) (odf_degrees : Nat)
    (max_ram_mb : Option ℚ) : OdfAnalysisTrace :=
  let odf_scale : Int := ⌈odf_scale_um / px_size_iso0⌉
  ⟨odf_scale,
   init_odf_volumes get_item_size avail vec_img_shape.dropLast tmp_dir odf_scale
     odf_degrees max_ram_mb,
   odf_scale, odf_scale⟩

/-! ### Fractional anisotropy: `compute_fractional_anisotropy` (pipeline.py 25-47) -/

/-- Modelled from the spec: `divide_nonzero` (foa3d/utils.py, not under src) is the elementwise
quotient whose zero-denominator entries resolve to 0 rather than propagating a non-finite
value. -/
noncomputable def divide_nonzero (num den : ℝ) : ℝ :=
  if den = 0 then 0 else num / den

/-- `compute_fractional_anisotropy` (pipeline.py 25-47), per voxel: the structure tensor
fractional anisotropy of one eigenvalue triplet. -/
noncomputable def compute_fractional_anisotropy (l0 l1 l2 : ℝ) : ℝ :=
  Real.sqrt (0.5 * divide_nonzero
    ((l0 - l1) ^ 2 + (l0 - l2) ^ 2 + (l1 - l2) ^ 2)
    (l0 ^ 2 + l1 ^ 2 + l2 ^ 2))

/-! ### Well-formedness of the `save_array` calls issued by `save_odf_arrays`
(output.py 39-76, pipeline.py 851-901) -/

/-- Parameter names of `save_array`, in order, from its def in output.py line 39;
the function declares no `*args` or `**kwargs`. -/
def save_array_params : List String :=
  ["fname", "save_dir", "nd_array", "px_size", "format"]

/-- One Python call site: the filename argument, the number of positional arguments
passed, and the keyword-argument names passed. -/
structure PyCall where
  fname : String
  n_pos : Nat
  kwargs : List String

/-- A Python call is well-formed for a parameter list (without `*args`/`**kwargs`)
when it does not pass more positional arguments than there are parameters and every
keyword names a declared parameter that the positional arguments did not already bind;
otherwise the interpreter raises TypeError before the callee body runs. -/
def call_ok (params : List String) (c : PyCall) : Bool :=
  decide (c.n_pos ≤ params.length) &&
    c.kwargs.all (fun k => params.contains k && !((params.take c.n_pos).contains k))

/-- The six `save_array` call sites of `save_odf_arrays` (pipeline.py 894-900), in source
order: background and ODF coefficients with `format='nii'`, then the four dispersion-index
rasters, each passed four positional arguments plus the keyword `odi=True`. -/
def save_odf_arrays_calls (img_name : String) (sv : String) : List PyCall :=
  [⟨"bg_mrtrixview_sv" ++ sv ++ "_" ++ img_name, 3, ["format"]⟩,
   ⟨"odf_mrtrixview_sv" ++ sv ++ "_" ++ img_name, 3, ["format"]⟩,
   ⟨"odi_pri_sv" ++ sv ++ "_" ++ img_name, 4, ["odi"]⟩,
   ⟨"odi_sec_sv" ++ sv ++ "_" ++ img_name, 4, ["odi"]⟩,
   ⟨"odi_tot_sv" ++ sv ++ "_" ++ img_name, 4, ["odi"]⟩,
   ⟨"odi_anis_sv" ++ sv ++ "_" ++ img_name, 4, ["odi"]⟩]

/-! ### `save_frangi_arrays` (pipeline.py 785-848) -/

/-- Serialization effects `save_frangi_arrays` can issue: moving a file verbatim to a new
path (shutil.move: a rename, no re-encoding) or handing an array to the `save_array`
collaborator under a filename, directory and format. -/
inductive SaveAction where
  | move : String → String → SaveAction
  | save_arr : String → String → String → SaveAction
  deriving DecidableEq

/-- `os.path.join` for one directory and one basename. -/
def path_join (d f : String) : String := d ++ "/" ++ f

/-- `save_frangi_arrays` (pipeline.py 785-848) as the list of serialization actions it
performs, in source order; `has_neuron_msk` mirrors `neuron_msk is not None`. -/
def save_frangi_arrays (fiber_dset_path : Option String) (save_dir : String)
    (img_name : String) (has_neuron_msk : Bool) : List SaveAction :=
  (match fiber_dset_path with
    | some p => SaveAction.move p (path_join save_dir ("fiber_vec_" ++ img_name ++ ".h5"))
    | none => SaveAction.save_arr ("fiber_vec_" ++ img_name) save_dir "npy")
  :: SaveAction.save_arr ("fiber_cmap_" ++ img_name) save_dir "tif"
  :: SaveAction.save_arr ("frac_anis_" ++ img_name) save_dir "tif"
  :: SaveAction.save_arr ("frangi_" ++ img_name) save_dir "tif"
  :: SaveAction.save_arr ("fiber_msk_" ++ img_name) save_dir "tif"
  :: (if has_neuron_msk then [SaveAction.save_arr ("neuron_msk_" ++ img_name) save_dir "tif"]
      else [])

/-! ### Tile worker: `mask_background` (pipeline.py 440-495), `fiber_analysis`
(pipeline.py 284-437) and `init_frangi_volumes` (pipeline.py 50-153) -/

/-- Voxel index along the (Z, Y, X) axes. -/
abbrev Idx3 := Nat × Nat × Nat

/-- A 3-component real vector (an orientation vector of an eigenvalue triplet). -/
abbrev V3R := Fin 3 → ℝ

/-- A 3-component natural vector (an RGB color triplet). -/
abbrev V3N := Fin 3 → Nat

/-- A 3D array slice: its shape and its values, read at (Z, Y, X) indices. -/
structure NSlice (α : Type) where
  shape : Idx3
  val : Idx3 → α

/-- The index set covered by a slice's shape. -/
def NSlice.extent {α : Type} (s : NSlice α) : Finset Idx3 :=
  Finset.range s.shape.1 ×ˢ Finset.range s.shape.2.1 ×ˢ Finset.range s.shape.2.2

/-- `np.max` of a natural-valued slice (the raw fluorescence images are unsigned). -/
def npMax (s : NSlice Nat) : Nat :=
  s.extent.sup s.val

/-- A one-axis index range with unit step, as in a NumPy slice object. -/
structure Rng where
  lo : Nat
  hi : Nat
  deriving DecidableEq

/-- Whether the range contains an index. -/
def Rng.has (r : Rng) (i : Nat) : Bool :=
  decide (r.lo ≤ i) && decide (i < r.hi)

/-- A 3D output range, one `Rng` per axis. -/
structure Rng3 where
  z : Rng
  y : Rng
  x : Rng
  deriving DecidableEq

/-- Whether the 3D range contains an index. -/
def Rng3.has (r : Rng3) (i : Idx3) : Bool :=
  r.z.has i.1 && r.y.has i.2.1 && r.x.has i.2.2

/-- The selected z-depth range `slice(z_min, z_max, 1)`: a start row and an optional
stop row (`None` meaning "to the end"). -/
structure ZSel where
  start : Nat
  stop : Option Nat
  deriving DecidableEq

/-- The write-back `dst[rng_out] = src[z_sel, ...]`: inside the output range the stored
value comes from the computed slice, with the row offset shifted by the z-selection start;
outside the range the destination is untouched. -/
def write_zsel {α : Type} (dst : Idx3 → α) (r : Rng3) (zs : ZSel) (src : Idx3 → α) :
    Idx3 → α :=
  fun i =>
    if r.has i then src (zs.start + (i.1 - r.z.lo), i.2.1 - r.y.lo, i.2.2 - r.x.lo)
    else dst i

/-- `astype(np.uint8)` of a nonnegative float: truncation to the integer part, modulo 256. -/
noncomputable def np_uint8 (x : ℝ) : Nat :=
  (⌊x⌋ % 256).toNat

/-- The shared output volumes `fiber_analysis` writes into, each read at (Z, Y, X). -/
structure FrangiVols where
  fiber_vec_img : Idx3 → V3R
  fiber_vec_clr : Idx3 → V3N
  frac_anis_img : Idx3 → Nat
  frangi_img : Idx3 → Nat
  iso_fiber_img : Idx3 → Nat
  fiber_msk : Idx3 → Nat
  neuron_msk : Idx3 → Nat

/-- Opaque payload types of the collaborator modules that are not under src:
an input range tuple (slicing.py), a padding matrix, smoothing sigmas, filter scales
and the resize factors (all never inspected by pipeline.py itself). -/
abbrev InRng := List (Nat × Option Nat)

/-- Padding matrix payload (see `InRng`). -/
abbrev PadMat := List (Int × Int)

/-- Smoothing sigma payload (see `InRng`). -/
abbrev SigmaV := List ℚ

/-- Frangi scale payload (see `InRng`). -/
abbrev ScalesV := List ℚ

/-- Resize factor payload (see `InRng`). -/
abbrev RszV := List ℚ

/-- The collaborator functions `fiber_analysis` calls that live outside src
(foa3d/slicing.py, foa3d/preprocessing.py, foa3d/frangi.py, foa3d/utils.py).
They are abstract: every theorem below holds for every implementation. -/
structure TileFns (Img : Type) : Type 1 where
  slice_channel : Img → InRng → Nat → Bool → NSlice Nat
  correct_image_anisotropy : NSlice Nat → RszV → Option SigmaV → Option PadMat →
    NSlice ℝ × PadMat
  frangi_filter : NSlice ℝ → ScalesV → ℝ → ℝ → ℝ → Bool →
    NSlice ℝ × NSlice V3R × NSlice V3R
  crop_slice : {α : Type} → NSlice α → Rng3 → Option PadMat → NSlice α
  orient_colormap : NSlice V3R → NSlice V3N
  vector_colormap : NSlice V3R → NSlice V3N
  create_background_mask : NSlice ℝ → String → Idx3 → Bool

/-- `compute_fractional_anisotropy` applied voxelwise to a slice of eigenvalue triplets
(the source computes it vectorized over the (Z, Y, X) field). -/
noncomputable def compute_fa_slice (eig : NSlice V3R) : NSlice ℝ :=
  ⟨eig.shape, fun i => compute_fractional_anisotropy (eig.val i 0) (eig.val i 1) (eig.val i 2)⟩

/-- `mask_background` (pipeline.py 440-495): generates the background mask through the
`create_background_mask` collaborator (passed as `cbm`), optionally inverts it, zeroes the
orientation-vector and colormap entries at masked voxels, optionally zeroes the
fractional-anisotropy entries there, and returns the arrays with the mask used. -/
def mask_background (cbm : NSlice ℝ → String → Idx3 → Bool) (img : NSlice ℝ)
    (fiber_vec_slice : NSlice V3R) (orientcol_slice : NSlice V3N)
    (frac_anis_slice : Option (NSlice ℝ)) (thresh_method : String) (invert : Bool) :
    NSlice V3R × NSlice V3N × Option (NSlice ℝ) × (Idx3 → Bool) :=
  let bg0 := cbm img thresh_method
  let background : Idx3 → Bool := if invert then (fun i => ! bg0 i) else bg0
  let fv : NSlice V3R :=
    ⟨fiber_vec_slice.shape, fun i => if background i then (fun _ => 0) else fiber_vec_slice.val i⟩
  let oc : NSlice V3N :=
    ⟨orientcol_slice.shape, fun i => if background i then (fun _ => 0) else orientcol_slice.val i⟩
  match frac_anis_slice with
  | some fa =>
      (fv, oc, some ⟨fa.shape, fun i => if background i then 0 else fa.val i⟩, background)
  | none => (fv, oc, none, background)

/-- The slices a non-skipped tile has computed right before the write-back phase of
`fiber_analysis`, together with the masks. -/
structure TileComputed where
  fiber_vec_slice : NSlice V3R
  orientcol_slice : NSlice V3N
  iso_fiber_slice : NSlice ℝ
  frac_anis_slice : NSlice ℝ
  frangi_slice : NSlice ℝ
  fiber_mask_slice : Idx3 → Bool
  neuron_mask_slice : Option (Idx3 → Bool)

/-- The compute phase of `fiber_analysis` (pipeline.py 376-425): everything up to, but not
including, the write-back. Note the z-depth selection is not an argument: no computed
value depends on it. Returns `none` when the tile is skipped because its raw fiber slice
has zero maximum. -/
noncomputable def fiber_analysis_computed {Img : Type} (F : TileFns Img) (img : Img)
    (rng_in rng_in_neu : InRng) (rng_out : Rng3) (pad_mat : PadMat) (smooth_sigma : SigmaV)
    (scales_px : ScalesV) (px_rsz : RszV) (ch_neuron ch_fiber : Nat) (alpha beta gamma : ℝ)
    (dark orient_cmap lpf_soma_mask mosaic : Bool) : Option TileComputed :=
  let fiber_slice := F.slice_channel img rng_in ch_fiber mosaic
  if npMax fiber_slice ≠ 0 then
    let ca := F.correct_image_anisotropy fiber_slice px_rsz (some smooth_sigma) (some pad_mat)
    let rsz_pad_mat := ca.2
    let ff := F.frangi_filter ca.1 scales_px alpha beta gamma dark
    let iso_fiber_slice := F.crop_slice ca.1 rng_out (some rsz_pad_mat)
    let frangi_slice := F.crop_slice ff.1 rng_out (some rsz_pad_mat)
    let fiber_vec_slice := F.crop_slice ff.2.1 rng_out (some rsz_pad_mat)
    let eigenval_slice := F.crop_slice ff.2.2 rng_out (some rsz_pad_mat)
    let frac_anis_slice := compute_fa_slice eigenval_slice
    let orientcol_slice :=
      if orient_cmap then F.orient_colormap fiber_vec_slice else F.vector_colormap fiber_vec_slice
    let m1 := mask_background F.create_background_mask frangi_slice fiber_vec_slice
      orientcol_slice none "li" false
    if lpf_soma_mask then
      let neuron_slice := F.slice_channel img rng_in_neu ch_neuron mosaic
      let cn := F.correct_image_anisotropy neuron_slice px_rsz none none
      let iso_neuron_slice := F.crop_slice cn.1 rng_out none
      let m2 := mask_background F.create_background_mask iso_neuron_slice m1.1 m1.2.1
        (some frac_anis_slice) "yen" true
      some ⟨m2.1, m2.2.1, iso_fiber_slice, m2.2.2.1.getD frac_anis_slice, frangi_slice,
        m1.2.2.2, some m2.2.2.2⟩
    else
      some ⟨m1.1, m1.2.1, iso_fiber_slice, frac_anis_slice, frangi_slice, m1.2.2.2, none⟩
  else none

/-- The write-back phase of `fiber_analysis` (pipeline.py 427-437): each computed slice is
restricted to the requested z-depth rows and stored into the tile's output range; the
uint8 volumes receive the scaled/truncated values exactly as the source converts them. -/
noncomputable def apply_tile_writes (vols : FrangiVols) (rng_out : Rng3) (z_sel : ZSel)
    (c : TileComputed) : FrangiVols :=
  { fiber_vec_img := write_zsel vols.fiber_vec_img rng_out z_sel c.fiber_vec_slice.val
    fiber_vec_clr := write_zsel vols.fiber_vec_clr rng_out z_sel c.orientcol_slice.val
    frac_anis_img := write_zsel vols.frac_anis_img rng_out z_sel
      (fun i => np_uint8 (255 * c.frac_anis_slice.val i))
    frangi_img := write_zsel vols.frangi_img rng_out z_sel
      (fun i => np_uint8 (255 * c.frangi_slice.val i))
    iso_fiber_img := write_zsel vols.iso_fiber_img rng_out z_sel
      (fun i => np_uint8 (c.iso_fiber_slice.val i))
    fiber_msk := write_zsel vols.fiber_msk rng_out z_sel
      (fun i => if c.fiber_mask_slice i then 0 else 255)
    neuron_msk := match c.neuron_mask_slice with
      | some nm => write_zsel vols.neuron_msk rng_out z_sel (fun i => if nm i then 255 else 0)
      | none => vols.neuron_msk }

/-- `fiber_analysis` (pipeline.py 284-437), monolithic as in the source: extract the raw
fiber slice, skip the tile when its maximum is zero, otherwise preprocess, filter, crop,
mask and write every output slice (restricted to the z-depth selection) into the shared
output volumes. -/
noncomputable def fiber_analysis {Img : Type} (F : TileFns Img) (img : Img)
    (rng_in rng_in_neu : InRng) (rng_out : Rng3) (pad_mat : PadMat) (smooth_sigma : SigmaV)
    (scales_px : ScalesV) (px_rsz : RszV) (z_sel : ZSel) (vols : FrangiVols)
    (ch_neuron ch_fiber : Nat) (alpha beta gamma : ℝ)
    (dark orient_cmap lpf_soma_mask mosaic : Bool) : FrangiVols :=
  let fiber_slice := F.slice_channel img rng_in ch_fiber mosaic
  if npMax fiber_slice ≠ 0 then
    let ca := F.correct_image_anisotropy fiber_slice px_rsz (some smooth_sigma) (some pad_mat)
    let rsz_pad_mat := ca.2
    let ff := F.frangi_filter ca.1 scales_px alpha beta gamma dark
    let iso_fiber_slice := F.crop_slice ca.1 rng_out (some rsz_pad_mat)
    let frangi_slice := F.crop_slice ff.1 rng_out (some rsz_pad_mat)
    let fiber_vec_slice := F.crop_slice ff.2.1 rng_out (some rsz_pad_mat)
    let eigenval_slice := F.crop_slice ff.2.2 rng_out (some rsz_pad_mat)
    let frac_anis_slice := compute_fa_slice eigenval_slice
    let orientcol_slice :=
      if orient_cmap then F.orient_colormap fiber_vec_slice else F.vector_colormap fiber_vec_slice
    let m1 := mask_background F.create_background_mask frangi_slice fiber_vec_slice
      orientcol_slice none "li" false
    if lpf_soma_mask then
      let neuron_slice := F.slice_channel img rng_in_neu ch_neuron mosaic
      let cn := F.correct_image_anisotropy neuron_slice px_rsz none none
      let iso_neuron_slice := F.crop_slice cn.1 rng_out none
      let m2 := mask_background F.create_background_mask iso_neuron_slice m1.1 m1.2.1
        (some frac_anis_slice) "yen" true
      { fiber_vec_img := write_zsel vols.fiber_vec_img rng_out z_sel m2.1.val
        fiber_vec_clr := write_zsel vols.fiber_vec_clr rng_out z_sel m2.2.1.val
        frac_anis_img := write_zsel vols.frac_anis_img rng_out z_sel
          (fun i => np_uint8 (255 * (m2.2.2.1.getD frac_anis_slice).val i))
        frangi_img := write_zsel vols.frangi_img rng_out z_sel
          (fun i => np_uint8 (255 * frangi_slice.val i))
        iso_fiber_img := write_zsel vols.iso_fiber_img rng_out z_sel
          (fun i => np_uint8 (iso_fiber_slice.val i))
        fiber_msk := write_zsel vols.fiber_msk rng_out z_sel
          (fun i => if m1.2.2.2 i then 0 else 255)
        neuron_msk := write_zsel vols.neuron_msk rng_out z_sel
          (fun i => if m2.2.2.2 i then 255 else 0) }
    else
      { fiber_vec_img := write_zsel vols.fiber_vec_img rng_out z_sel m1.1.val
        fiber_vec_clr := write_zsel vols.fiber_vec_clr rng_out z_sel m1.2.1.val
        frac_anis_img := write_zsel vols.frac_anis_img rng_out z_sel
          (fun i => np_uint8 (255 * frac_anis_slice.val i))
        frangi_img := write_zsel vols.frangi_img rng_out z_sel
          (fun i => np_uint8 (255 * frangi_slice.val i))
        iso_fiber_img := write_zsel vols.iso_fiber_img rng_out z_sel
          (fun i => np_uint8 (iso_fiber_slice.val i))
        fiber_msk := write_zsel vols.fiber_msk rng_out z_sel
          (fun i => if m1.2.2.2 i then 0 else 255)
        neuron_msk := vols.neuron_msk }
  else vols

/-- `np.ceil` of a rational, cast to a nonnegative integer. -/
def np_ceil_q (q : ℚ) : Nat :=
  Int.toNat ⌈q⌉

/-- The values returned by `init_frangi_volumes` (pipeline.py 152-153), in source order;
unlike `init_odf_volumes` the source unpacks every `init_volume` pair here, so the
fields hold bare volumes, with the fiber-orientation HDF5 path kept separately. -/
structure FrangiInitResult where
  fiber_dset_path : Option String
  fiber_vec_img : Vol
  fiber_vec_clr : Vol
  frac_anis_img : Vol
  frangi_img : Vol
  fiber_msk : Vol
  iso_fiber_img : Vol
  neuron_msk : Option Vol
  z_sel : ZSel

/-- `init_frangi_volumes` (pipeline.py 50-153): adapts the output z-extent when a z-range
is forced (`z_min != 0 or z_max is not None`, with `z_max` falling back to the slice
depth), scales every axis by the resize factors with `np.ceil`, and allocates the seven
output volumes through `init_volume`. Shapes are (Z, Y, X) triples as in the 3D source
arrays. -/
def init_frangi_volumes (get_item_size : String → Nat) (avail : ℚ)
    (img_shape : Nat × Nat × Nat) (slice_shape : Nat × Nat × Nat) (rsz : ℚ × ℚ × ℚ)
    (tmp_dir : String) (z_min : Nat) (z_max : Option Nat) (lpf_soma_mask : Bool)
    (max_ram_mb : Option ℚ) : FrangiInitResult :=
  let forced := z_min ≠ 0 ∨ z_max ≠ none
  let z_max' := if forced then some (z_max.getD slice_shape.1) else z_max
  let depth0 := if forced then z_max'.getD 0 - z_min else img_shape.1
  let z_sel : ZSel := ⟨z_min, z_max'⟩
  let dset_shape : List Nat :=
    [np_ceil_q (rsz.1 * depth0), np_ceil_q (rsz.2.1 * img_shape.2.1),
     np_ceil_q (rsz.2.2 * img_shape.2.2)]
  let slice_shape' : List Nat := [dset_shape.headD 0, slice_shape.2.1, slice_shape.2.2]
  let iso := init_volume get_item_size avail dset_shape "uint8" (some slice_shape')
    "iso_fiber" tmp_dir "r+" max_ram_mb
  let fr := init_volume get_item_size avail dset_shape "uint8" (some slice_shape')
    "frangi" tmp_dir "r+" max_ram_mb
  let fm := init_volume get_item_size avail dset_shape "uint8" (some slice_shape')
    "fiber_msk" tmp_dir "r+" max_ram_mb
  let fa := init_volume get_item_size avail dset_shape "uint8" (some slice_shape')
    "frac_anis" tmp_dir "r+" max_ram_mb
  let nm := if lpf_soma_mask then
      some (init_volume get_item_size avail dset_shape "uint8" (some slice_shape')
        "neuron_msk" tmp_dir "r+" max_ram_mb).1
    else none
  let vec_dset_shape := dset_shape ++ [3]
  let vec_slice_shape := slice_shape' ++ [3]
  let fv := init_volume get_item_size avail vec_dset_shape "float32" (some vec_slice_shape)
    "fiber_vec" tmp_dir "r+" max_ram_mb
  let fc := init_volume get_item_size avail vec_dset_shape "uint8" (some vec_slice_shape)
    "fiber_cmap" tmp_dir "r+" max_ram_mb
  ⟨fv.2, fv.1, fc.1, fa.1, fr.1, fm.1, iso.1, nm, z_sel⟩

/-! ### Concrete instances used to evaluate the tile-worker theorems on one input -/

/-- A 1x1x1 all-zero raw slice. -/
def zero_slice_n : NSlice Nat := ⟨(1, 1, 1), fun _ => 0⟩

/-- A 1x1x1 all-zero float slice. -/
noncomputable def zero_slice_r : NSlice ℝ := ⟨(1, 1, 1), fun _ => 0⟩

/-- A 1x1x1 all-zero vector slice. -/
noncomputable def zero_slice_v : NSlice V3R := ⟨(1, 1, 1), fun _ _ => 0⟩

/-- A 1x1x1 all-zero colormap slice. -/
def zero_slice_c : NSlice V3N := ⟨(1, 1, 1), fun _ _ => 0⟩

/-- One concrete implementation of the collaborator functions: every output is the
corresponding all-zero slice, cropping is the identity, every voxel is foreground. -/
noncomputable def tile_fns_inst : TileFns Unit :=
  ⟨fun _ _ _ _ => zero_slice_n,
   fun _ _ _ _ => (zero_slice_r, []),
   fun _ _ _ _ _ _ => (zero_slice_r, zero_slice_v, zero_slice_v),
   fun s _ _ => s,
   fun _ => zero_slice_c,
   fun _ => zero_slice_c,
   fun _ _ _ => false⟩

/-- Output volumes at their zero fill value. -/
noncomputable def frangi_vols_inst : FrangiVols :=
  ⟨fun _ _ => 0, fun _ _ => 0, fun _ => 0, fun _ => 0, fun _ => 0, fun _ => 0, fun _ => 0⟩

/-- A concrete 1x1x1 output range. -/
def rng3_inst : Rng3 := ⟨⟨0, 1⟩, ⟨0, 1⟩, ⟨0, 1⟩⟩

/-- A concrete dtype item-size assignment (1 byte for every dtype). -/
def gis_inst : String → Nat := fun _ => 1

/-! ### Theorems -/

/-- Helper: whichever backing `init_volume` chooses, the allocated volume records the
requested shape. -/
theorem init_volume_shape_eq (gis : String → Nat) (avail : ℚ) (shape : List Nat)
    (dtype : String) (chunks : Option (List Nat)) (nm tmp mm : String) (mrm : Option ℚ) :
    (init_volume gis avail shape dtype chunks nm tmp mm mrm).1.shape = shape := by
  unfold init_volume create_hdf5_dset create_memory_map
  dsimp only
  split <;> rfl

/-- Claim C3: for every shape, dtype and RAM budget, `init_volume` allocates a disk-resident
HDF5 dataset exactly when `itemsize * prod(shape)` is at least the effective RAM budget
(`max_ram_mb * 2^20` bytes when given, otherwise the currently available memory), and a
memory-mapped scratch buffer otherwise; the returned hdf5 path is non-None exactly in the
disk-backed case. -/
theorem init_volume_backing_rule (gis : String → Nat) (avail : ℚ) (shape : List Nat)
    (dtype : String) (chunks : Option (List Nat)) (nm tmp mm : String) (mrm : Option ℚ) :
    (((init_volume gis avail shape dtype chunks nm tmp mm mrm).2 ≠ none) ↔
        (match mrm with | none => avail | some mb => mb * 2 ^ 20) ≤
          ((gis dtype * shape.prod : Nat) : ℚ))
    ∧ (((init_volume gis avail shape dtype chunks nm tmp mm mrm).1.backing = Backing.hdf5) ↔
        (match mrm with | none => avail | some mb => mb * 2 ^ 20) ≤
          ((gis dtype * shape.prod : Nat) : ℚ)) := by
  have hbudget : (match mrm with | none => avail | some mb => mb * (1024 : ℚ) ^ 2) =
      (match mrm with | none => avail | some mb => mb * 2 ^ 20) := by
    cases mrm <;> norm_num
  unfold init_volume create_hdf5_dset create_memory_map
  dsimp only
  rw [hbudget]
  split
  case isTrue h => simpa using h
  case isFalse h => simpa using h

/-- Claim C9: when the fiber orientation volume is disk-resident (`fiber_dset_path` is not
None), the first serialization action of `save_frangi_arrays` moves that file verbatim to
`save_dir/fiber_vec_<img_name>.h5`; when it is memory-backed, the first action instead
hands the array to the `save_array` collaborator as a `.npy` file. -/
theorem save_frangi_arrays_fiber_vec_action (fdp : Option String) (sd nm : String)
    (hn : Bool) :
    (save_frangi_arrays fdp sd nm hn).head? = some (match fdp with
      | some p => SaveAction.move p (sd ++ "/" ++ ("fiber_vec_" ++ nm ++ ".h5"))
      | none => SaveAction.save_arr ("fiber_vec_" ++ nm) sd "npy") := by
  cases fdp <;> rfl

/-- Claim C1: of the six `save_array` calls issued by `save_odf_arrays`, the two Nifti
calls are well-formed but each of the four dispersion-index calls passes the keyword
`odi`, which `save_array`'s signature does not declare, so they raise TypeError instead
of writing the arrays. -/
theorem save_odf_arrays_odi_calls_ill_formed (img_name sv : String) :
    ((save_odf_arrays_calls img_name sv).map (call_ok save_array_params)) =
      [true, true, false, false, false, false] := by
  rfl

/-- Claim C2: each of the seven values returned by `init_odf_volumes` is the entire
(volume, hdf5 path) pair produced by the corresponding `init_volume` call — the source
never unpacks the pair — rather than the allocated volume alone. -/
theorem init_odf_volumes_returns_pairs (gis : String → Nat) (avail : ℚ) (shape : List Nat)
    (tmp : String) (scale : Int) (deg : Nat) (mrm : Option ℚ) :
    (init_odf_volumes gis avail shape tmp scale deg mrm).odf =
        init_volume gis avail
          (shape.map (fun s => np_ceil_div s scale) ++ [get_sph_harm_ncoeff deg]) "float32"
          (some [1, 1, 1, get_sph_harm_ncoeff deg]) ("odf_tmp" ++ toString scale) tmp "r+" mrm
    ∧ (init_odf_volumes gis avail shape tmp scale deg mrm).bg_mrtrix =
        init_volume gis avail (shape.map (fun s => np_ceil_div s scale)).reverse "uint8"
          (some ((shape.map (fun s => np_ceil_div s scale)).reverse.take 2 ++ [1]))
          ("bg_tmp" ++ toString scale) tmp "r+" mrm
    ∧ (init_odf_volumes gis avail shape tmp scale deg mrm).odi_pri =
        init_volume gis avail (shape.map (fun s => np_ceil_div s scale)) "uint8" none
          ("odi_pri_tmp" ++ toString scale) tmp "r+" mrm
    ∧ (init_odf_volumes gis avail shape tmp scale deg mrm).odi_sec =
        init_volume gis avail (shape.map (fun s => np_ceil_div s scale)) "uint8" none
          ("odi_sec_tmp" ++ toString scale) tmp "r+" mrm
    ∧ (init_odf_volumes gis avail shape tmp scale deg mrm).odi_tot =
        init_volume gis avail (shape.map (fun s => np_ceil_div s scale)) "uint8" none
          ("odi_tot_tmp" ++ toString scale) tmp "r+" mrm
    ∧ (init_odf_volumes gis avail shape tmp scale deg mrm).odi_anis =
        init_volume gis avail (shape.map (fun s => np_ceil_div s scale)) "uint8" none
          ("odi_anis_tmp" ++ toString scale) tmp "r+" mrm
    ∧ (init_odf_volumes gis avail shape tmp scale deg mrm).vec_tensor_eigen =
        init_volume gis avail (shape.map (fun s => np_ceil_div s scale) ++ [3]) "float32"
          (some [1, 1, 1, 3]) ("tensor_tmp" ++ toString scale) tmp "r+" mrm :=
  ⟨rfl, rfl, rfl, rfl, rfl, rfl, rfl⟩

/-- Claim C10: for positive requested super-voxel side and isotropic pixel size,
`odf_analysis` derives the integer voxel scale by rounding up — it equals `⌈um / px⌉`,
is at least `um / px`, exceeds it by less than one, and is positive — and that same
integer sizes the ODI output volumes (via ceil division of the vector-volume shape)
and is the voxel side passed to both downsampling collaborators. -/
theorem odf_analysis_scale_rounds_up (gis : String → Nat) (avail : ℚ) (shape : List Nat)
    (tmp : String) (um px0 : ℚ) (deg : Nat) (mrm : Option ℚ)
    (hum : 0 < um) (hpx : 0 < px0) :
    (odf_analysis gis avail shape tmp um px0 deg mrm).odf_scale = ⌈um / px0⌉
    ∧ um / px0 ≤ ((odf_analysis gis avail shape tmp um px0 deg mrm).odf_scale : ℚ)
    ∧ ((odf_analysis gis avail shape tmp um px0 deg mrm).odf_scale : ℚ) < um / px0 + 1
    ∧ 0 < (odf_analysis gis avail shape tmp um px0 deg mrm).odf_scale
    ∧ (odf_analysis gis avail shape tmp um px0 deg mrm).vols.odi_pri.1.shape =
        shape.dropLast.map (fun s => np_ceil_div s ⌈um / px0⌉)
    ∧ (odf_analysis gis avail shape tmp um px0 deg mrm).vxl_side_bg = ⌈um / px0⌉
    ∧ (odf_analysis gis avail shape tmp um px0 deg mrm).vxl_side_est = ⌈um / px0⌉ := by
  refine ⟨rfl, Int.le_ceil _, Int.ceil_lt_add_one _,
    Int.ceil_pos.mpr (div_pos hum hpx), ?_, rfl, rfl⟩
  exact init_volume_shape_eq gis avail _ "uint8" none _ tmp "r+" mrm

/-- Witness for C10 at a concrete input. -/
theorem odf_analysis_scale_rounds_up_witness :
    (0 : ℚ) < 10 ∧ (0 : ℚ) < 3
    ∧ ((odf_analysis gis_inst 0 [10, 9, 8, 3] "t" 10 3 6 none).odf_scale = ⌈(10 : ℚ) / 3⌉
    ∧ (10 : ℚ) / 3 ≤ ((odf_analysis gis_inst 0 [10, 9, 8, 3] "t" 10 3 6 none).odf_scale : ℚ)
    ∧ ((odf_analysis gis_inst 0 [10, 9, 8, 3] "t" 10 3 6 none).odf_scale : ℚ) < (10 : ℚ) / 3 + 1
    ∧ 0 < (odf_analysis gis_inst 0 [10, 9, 8, 3] "t" 10 3 6 none).odf_scale
    ∧ (odf_analysis gis_inst 0 [10, 9, 8, 3] "t" 10 3 6 none).vols.odi_pri.1.shape =
        ([10, 9, 8, 3] : List Nat).dropLast.map (fun s => np_ceil_div s ⌈(10 : ℚ) / 3⌉)
    ∧ (odf_analysis gis_inst 0 [10, 9, 8, 3] "t" 10 3 6 none).vxl_side_bg = ⌈(10 : ℚ) / 3⌉
    ∧ (odf_analysis gis_inst 0 [10, 9, 8, 3] "t" 10 3 6 none).vxl_side_est = ⌈(10 : ℚ) / 3⌉) :=
  ⟨by norm_num, by norm_num,
   odf_analysis_scale_rounds_up gis_inst 0 [10, 9, 8, 3] "t" 10 3 6 none
     (by norm_num) (by norm_num)⟩

/-- Claim C6: `compute_fractional_anisotropy` returns
`sqrt(0.5 * ((l0-l1)^2 + (l0-l2)^2 + (l1-l2)^2) / (l0^2+l1^2+l2^2))`, the quotient being
defined as 0 when the denominator is 0, so the 0/0 case resolves to exactly 0 rather than
a non-finite value. -/
theorem compute_fractional_anisotropy_formula (l0 l1 l2 : ℝ) :
    compute_fractional_anisotropy l0 l1 l2 =
      if l0 ^ 2 + l1 ^ 2 + l2 ^ 2 = 0 then 0
      else Real.sqrt (0.5 * (((l0 - l1) ^ 2 + (l0 - l2) ^ 2 + (l1 - l2) ^ 2) /
        (l0 ^ 2 + l1 ^ 2 + l2 ^ 2))) := by
  unfold compute_fractional_anisotropy divide_nonzero
  by_cases h : l0 ^ 2 + l1 ^ 2 + l2 ^ 2 = 0 <;> simp [h]

/-- Counterexample to claim C5 as stated: at the mixed-sign eigenvalue triplet
(1, -1, 0) the returned value is sqrt(3/2), which exceeds 1. -/
theorem compute_fractional_anisotropy_gt_one_mixed_signs :
    1 < compute_fractional_anisotropy 1 (-1) 0 := by
  have h : compute_fractional_anisotropy 1 (-1) 0 = Real.sqrt (3 / 2) := by
    unfold compute_fractional_anisotropy divide_nonzero
    norm_num
  rw [h, show (1 : ℝ) = Real.sqrt 1 from Real.sqrt_one.symm]
  exact Real.sqrt_lt_sqrt (by norm_num) (by norm_num)

/-- Claim C5 (amended): for every eigenvalue triplet whose components all share one sign
(all nonnegative or all nonpositive — in particular structure tensor eigenvalue fields),
the value returned by `compute_fractional_anisotropy` lies in [0, 1], and the all-zero
triplet maps to exactly 0, never NaN. -/
theorem compute_fractional_anisotropy_bounds (l0 l1 l2 : ℝ)
    (h : (0 ≤ l0 ∧ 0 ≤ l1 ∧ 0 ≤ l2) ∨ (l0 ≤ 0 ∧ l1 ≤ 0 ∧ l2 ≤ 0)) :
    0 ≤ compute_fractional_anisotropy l0 l1 l2
    ∧ compute_fractional_anisotropy l0 l1 l2 ≤ 1
    ∧ compute_fractional_anisotropy 0 0 0 = 0 := by
  refine ⟨Real.sqrt_nonneg _, ?_, ?_⟩
  · unfold compute_fractional_anisotropy
    refine Real.sqrt_le_one.mpr ?_
    unfold divide_nonzero
    split
    case isTrue => norm_num
    case isFalse hd =>
      have hden : 0 < l0 ^ 2 + l1 ^ 2 + l2 ^ 2 :=
        lt_of_le_of_ne (by positivity) (Ne.symm hd)
      have hprod : 0 ≤ l0 * l1 + l0 * l2 + l1 * l2 := by
        rcases h with ⟨h0, h1, h2⟩ | ⟨h0, h1, h2⟩
        · nlinarith [mul_nonneg h0 h1, mul_nonneg h0 h2, mul_nonneg h1 h2]
        · nlinarith [mul_nonneg (neg_nonneg.mpr h0) (neg_nonneg.mpr h1),
            mul_nonneg (neg_nonneg.mpr h0) (neg_nonneg.mpr h2),
            mul_nonneg (neg_nonneg.mpr h1) (neg_nonneg.mpr h2)]
      rw [← mul_div_assoc, div_le_one hden]
      nlinarith [hprod]
  · unfold compute_fractional_anisotropy divide_nonzero
    norm_num

/-- Witness for C5 (amended) at a concrete input. -/
theorem compute_fractional_anisotropy_bounds_witness :
    ((0 ≤ (1 : ℝ) ∧ 0 ≤ (2 : ℝ) ∧ 0 ≤ (3 : ℝ)) ∨
      ((1 : ℝ) ≤ 0 ∧ (2 : ℝ) ≤ 0 ∧ (3 : ℝ) ≤ 0))
    ∧ (0 ≤ compute_fractional_anisotropy 1 2 3
       ∧ compute_fractional_anisotropy 1 2 3 ≤ 1
       ∧ compute_fractional_anisotropy 0 0 0 = 0) :=
  ⟨Or.inl ⟨by norm_num, by norm_num, by norm_num⟩,
   compute_fractional_anisotropy_bounds 1 2 3
     (Or.inl ⟨by norm_num, by norm_num, by norm_num⟩)⟩

/-- Claim C7: `mask_background` zeroes the orientation-vector and colormap entries exactly
at the voxels the computed threshold classifies as background when `invert` is false, and
exactly at the complementary voxels when `invert` is true; every other voxel's entries are
left unchanged; a supplied fractional-anisotropy array is zeroed on the same voxel set;
and the returned boolean mask is exactly that set. Stated for every background classifier
`cbm` (the thresholding collaborator lives outside src). -/
theorem mask_background_zeroes_exactly (cbm : NSlice ℝ → String → Idx3 → Bool)
    (img : NSlice ℝ) (fv : NSlice V3R) (oc : NSlice V3N) (fa : NSlice ℝ)
    (tm : String) (invert : Bool) :
    (∀ i, (mask_background cbm img fv oc (some fa) tm invert).1.val i =
        if (if invert then ! cbm img tm i else cbm img tm i) then (fun _ => 0) else fv.val i)
    ∧ (∀ i, (mask_background cbm img fv oc (some fa) tm invert).2.1.val i =
        if (if invert then ! cbm img tm i else cbm img tm i) then (fun _ => 0) else oc.val i)
    ∧ (∀ i, ((mask_background cbm img fv oc (some fa) tm invert).2.2.1.getD fa).val i =
        if (if invert then ! cbm img tm i else cbm img tm i) then 0 else fa.val i)
    ∧ (mask_background cbm img fv oc (some fa) tm invert).2.2.2 =
        (fun i => if invert then ! cbm img tm i else cbm img tm i)
    ∧ (∀ i, (mask_background cbm img fv oc none tm invert).1.val i =
        if (if invert then ! cbm img tm i else cbm img tm i) then (fun _ => 0) else fv.val i)
    ∧ (∀ i, (mask_background cbm img fv oc none tm invert).2.1.val i =
        if (if invert then ! cbm img tm i else cbm img tm i) then (fun _ => 0) else oc.val i)
    ∧ (mask_background cbm img fv oc none tm invert).2.2.2 =
        (fun i => if invert then ! cbm img tm i else cbm img tm i) := by
  cases invert <;>
    refine ⟨fun i => ?_, fun i => ?_, fun i => ?_, ?_, fun i => ?_, fun i => ?_, ?_⟩ <;>
    simp [mask_background]

/-- Claim C4: a tile whose extracted raw fiber slice is uniformly zero is skipped
entirely: `fiber_analysis` leaves every one of the seven shared output volumes exactly
as it found them, whatever the collaborator implementations and parameters are. -/
theorem fiber_analysis_skips_uniformly_zero_tile {Img : Type} (F : TileFns Img) (img : Img)
    (rng_in rng_in_neu : InRng) (rng_out : Rng3) (pad_mat : PadMat) (smooth_sigma : SigmaV)
    (scales_px : ScalesV) (px_rsz : RszV) (z_sel : ZSel) (vols : FrangiVols)
    (ch_neuron ch_fiber : Nat) (alpha beta gamma : ℝ)
    (dark orient_cmap lpf_soma_mask mosaic : Bool)
    (h : ∀ i ∈ (F.slice_channel img rng_in ch_fiber mosaic).extent,
        (F.slice_channel img rng_in ch_fiber mosaic).val i = 0) :
    fiber_analysis F img rng_in rng_in_neu rng_out pad_mat smooth_sigma scales_px px_rsz
      z_sel vols ch_neuron ch_fiber alpha beta gamma dark orient_cmap lpf_soma_mask mosaic
      = vols := by
  have hmax : npMax (F.slice_channel img rng_in ch_fiber mosaic) = 0 := by
    have hb : ∀ i ∈ (F.slice_channel img rng_in ch_fiber mosaic).extent,
        (F.slice_channel img rng_in ch_fiber mosaic).val i = ⊥ := by simpa using h
    simpa [npMax, Nat.bot_eq_zero] using (Finset.sup_eq_bot_iff _ _).mpr hb
  unfold fiber_analysis
  simp [hmax]

/-- Witness for C4 at a concrete input. -/
theorem fiber_analysis_skips_uniformly_zero_tile_witness :
    (∀ i ∈ (tile_fns_inst.slice_channel () [] 1 false).extent,
        (tile_fns_inst.slice_channel () [] 1 false).val i = 0)
    ∧ fiber_analysis tile_fns_inst () [] [] rng3_inst [] [] [] [] ⟨0, none⟩ frangi_vols_inst
        0 1 0 0 100 false false false false = frangi_vols_inst :=
  ⟨by decide,
   fiber_analysis_skips_uniformly_zero_tile tile_fns_inst () [] [] rng3_inst [] [] [] []
     ⟨0, none⟩ frangi_vols_inst 0 1 0 0 100 false false false false (by decide)⟩

/-- Claim C8: the forced z-depth range only affects which rows are retained at write-back.
First, `init_frangi_volumes` sizes the output z-extent from `z_max - z_min` when a range
is forced (`z_max` falling back to the slice depth when omitted) and from the full image
depth otherwise, recording the selection as `slice(z_min, z_max)`. Second,
`fiber_analysis` factors into a compute phase that never receives the z-selection followed
by a write-back that stores the z-cropped computed slices into the output range. -/
theorem z_range_only_affects_write_back
    (gis : String → Nat) (avail : ℚ) (d0 d1 d2 s0 s1 s2 : Nat) (r0 r1 r2 : ℚ)
    (tmp : String) (z_min : Nat) (z_max : Option Nat) (lpf : Bool) (mrm : Option ℚ)
    {Img : Type} (F : TileFns Img) (img : Img) (rng_in rng_in_neu : InRng) (rng_out : Rng3)
    (pad_mat : PadMat) (smooth_sigma : SigmaV) (scales_px : ScalesV) (px_rsz : RszV)
    (z_sel : ZSel) (vols : FrangiVols) (ch_neuron ch_fiber : Nat) (alpha beta gamma : ℝ)
    (dark orient_cmap lpf_soma_mask mosaic : Bool) :
    ((init_frangi_volumes gis avail (d0, d1, d2) (s0, s1, s2) (r0, r1, r2) tmp z_min z_max
        lpf mrm).iso_fiber_img.shape =
      [np_ceil_q (r0 * (if z_min ≠ 0 ∨ z_max ≠ none then (z_max.getD s0) - z_min else d0)),
       np_ceil_q (r1 * d1), np_ceil_q (r2 * d2)])
    ∧ ((init_frangi_volumes gis avail (d0, d1, d2) (s0, s1, s2) (r0, r1, r2) tmp z_min z_max
        lpf mrm).z_sel =
      ⟨z_min, if z_min ≠ 0 ∨ z_max ≠ none then some (z_max.getD s0) else z_max⟩)
    ∧ (fiber_analysis F img rng_in rng_in_neu rng_out pad_mat smooth_sigma scales_px px_rsz
        z_sel vols ch_neuron ch_fiber alpha beta gamma dark orient_cmap lpf_soma_mask mosaic
      = match fiber_analysis_computed F img rng_in rng_in_neu rng_out pad_mat smooth_sigma
          scales_px px_rsz ch_neuron ch_fiber alpha beta gamma dark orient_cmap
          lpf_soma_mask mosaic with
        | none => vols
        | some c => apply_tile_writes vols rng_out z_sel c) := by
  refine ⟨?_, ?_, ?_⟩
  · by_cases hf : z_min ≠ 0 ∨ z_max ≠ none <;>
      simp [init_frangi_volumes, init_volume_shape_eq, hf]
  · by_cases hf : z_min ≠ 0 ∨ z_max ≠ none <;>
      simp [init_frangi_volumes, hf]
  · unfold fiber_analysis fiber_analysis_computed
    by_cases hmax : npMax (F.slice_channel img rng_in ch_fiber mosaic) ≠ 0
    · simp only [if_pos hmax]
      by_cases hlpf : lpf_soma_mask = true
      · simp only [if_pos hlpf]
        rfl
      · simp only [if_neg hlpf]
        rfl
    · simp only [if_neg hmax]

end Foa3d
